import Mathlib

/-!
Verification of the CrUX Intelligence Assistant orchestration core.

This file is a shallow embedding, in Lean 4, of the orchestration core of the
CrUX web-performance auditing application: the metric extractor and the
parallel-fetch aggregator of src/services/cruxService.ts, and the workflow
state machine of src/App.tsx (with the shared data types of src/types.ts and
the constants of src/constants.ts). JavaScript numbers are modelled as
rationals, null/undefined as Option, thrown exceptions as Except with the
error message as the payload, and the external agent calls (network
transport, LLM narration) as explicit oracle environments. Ghost fields
(batchComparisonCalls, queryAgentCalls) instrument call counts that the
source performs implicitly.
-/

namespace Crux

/-- Qualitative web-vitals rating, from the MetricAnalysis type in src/types.ts. -/
inductive Rating
  | good
  | needsImprovement
  | poor
deriving DecidableEq, Repr

/-- One calendar date, from the CrUXDate type. -/
structure CrUXDate where
  year : Nat
  month : Nat
  day : Nat
deriving DecidableEq, Repr

/-- Date range covered by a percentile report, from the CrUXCollectionPeriod type. -/
structure CrUXCollectionPeriod where
  firstDate : CrUXDate
  lastDate : CrUXDate
deriving DecidableEq, Repr

/-- Percentile block of one metric: the p75 value, from the MetricValue type
(the histogram field is never read by the embedded code and is omitted). -/
structure Percentiles where
  p75 : ℚ
deriving DecidableEq, Repr

/-- One named metric of a current snapshot, from the MetricValue type. -/
structure MetricValue where
  percentiles : Percentiles
deriving DecidableEq, Repr

/-- Metrics object of a current snapshot: each tracked metric is either absent
(undefined in the source) or present, from CrUXResponse.record.metrics. -/
structure CrUXMetrics where
  largest_contentful_paint : Option MetricValue
  cumulative_layout_shift : Option MetricValue
  interaction_to_next_paint : Option MetricValue
deriving DecidableEq, Repr

/-- Record of a validated current snapshot (metrics object known present),
from CrUXResponse.record. -/
structure CrUXRecord where
  metrics : CrUXMetrics
  collectionPeriod : Option CrUXCollectionPeriod
deriving DecidableEq, Repr

/-- Validated current-snapshot response, from the CrUXResponse type. -/
structure CrUXResponse where
  record : CrUXRecord
deriving DecidableEq, Repr

/-- One entry of a historical p75 series. An entry is null, or a value that
coerces under the JavaScript Number conversion to a finite number, or a value
whose coercion is not finite (NaN or infinite). -/
inductive P75Entry
  | nullEntry
  | fin (q : ℚ)
  | nonfinite
deriving DecidableEq, Repr

/-- Result of the map step in getTrend: null is kept as null, every other
entry is replaced by its Number coercion. -/
inductive JsNumber
  | nullValue
  | nan
  | num (q : ℚ)
deriving DecidableEq, Repr

/-- Timeseries block of one history metric, from the CrUXHistoryMetric type
(the histogramTimeseries field is never read and is omitted). -/
structure PercentilesTimeseries where
  p75s : List P75Entry
deriving DecidableEq, Repr

/-- One named metric of a history response, from the CrUXHistoryMetric type. -/
structure CrUXHistoryMetric where
  percentilesTimeseries : PercentilesTimeseries
deriving DecidableEq, Repr

/-- Metrics object of a history response, from CrUXHistoryResponse.record.metrics. -/
structure CrUXHistoryMetrics where
  largest_contentful_paint : Option CrUXHistoryMetric
  cumulative_layout_shift : Option CrUXHistoryMetric
  interaction_to_next_paint : Option CrUXHistoryMetric
deriving DecidableEq, Repr

/-- Record of a history response, from CrUXHistoryResponse.record. The
collectionPeriods field is read with optional chaining in the source, so it is
optional here. -/
structure CrUXHistoryRecord where
  metrics : CrUXHistoryMetrics
  collectionPeriods : Option (List CrUXCollectionPeriod)
deriving DecidableEq, Repr

/-- History response with the record shape present, from the CrUXHistoryResponse type. -/
structure CrUXHistoryResponse where
  record : CrUXHistoryRecord
deriving DecidableEq, Repr

/-- Derived value and rating of one metric, from the MetricAnalysis type. -/
structure MetricAnalysis where
  value : ℚ
  rating : Rating
deriving DecidableEq, Repr

/-- Metrics block of a FormFactorAnalysis, from FormFactorAnalysis.metrics. -/
structure MetricsBlock where
  lcp : MetricAnalysis
  cls : MetricAnalysis
  inp : MetricAnalysis
deriving DecidableEq, Repr

/-- History block of a FormFactorAnalysis, from FormFactorAnalysis.history. -/
structure HistoryBlock where
  lcpTrend : List ℚ
  clsTrend : List ℚ
  inpTrend : List ℚ
  dates : Option (List String)
deriving DecidableEq, Repr

/-- Per-(domain, form-factor) analysis, from the FormFactorAnalysis type. -/
structure FormFactorAnalysis where
  metrics : MetricsBlock
  history : HistoryBlock
  regressions : List String
  collectionPeriod : String
deriving DecidableEq, Repr

/-- Per-domain aggregate, from the AnalysisResult type. -/
structure AnalysisResult where
  domain : String
  phone : FormFactorAnalysis
  desktop : FormFactorAnalysis
deriving DecidableEq, Repr

/-! Metric extractor: processRawData and its helpers,
from src/services/cruxService.ts lines 119-187. -/

/-- Math.round of JavaScript: round half toward positive infinity. -/
def jsRound (q : ℚ) : ℤ := Int.floor (q + 1/2)

/-- String(n).padStart(2, "0") of the source date formatter, for natural n. -/
def padTwo (n : Nat) : String :=
  if n < 10 then "0" ++ toString n else toString n

/-- Format one CrUXDate as YYYY-MM-DD, from the formatDate helper. -/
def formatDate (d : CrUXDate) : String :=
  toString d.year ++ "-" ++ padTwo d.month ++ "-" ++ padTwo d.day

/-- Format one collection period as used for the collectionPeriod label and
the timeline dates. -/
def formatPeriod (p : CrUXCollectionPeriod) : String :=
  formatDate p.firstDate ++ " to " ++ formatDate p.lastDate

/-- Rating helper rateLCP, from cruxService.ts line 130. -/
def rateLCP (val : ℚ) : Rating :=
  if val ≤ 2500 then .good else if val ≤ 4000 then .needsImprovement else .poor

/-- Rating helper rateCLS, from cruxService.ts line 131. -/
def rateCLS (val : ℚ) : Rating :=
  if val ≤ 0.1 then .good else if val ≤ 0.25 then .needsImprovement else .poor

/-- Rating helper rateINP, from cruxService.ts line 132. -/
def rateINP (val : ℚ) : Rating :=
  if val ≤ 200 then .good else if val ≤ 500 then .needsImprovement else .poor

/-- Map step of getTrend: x equal null stays null, otherwise Number(x). -/
def toNumberOrNull : P75Entry → JsNumber
  | .nullEntry => .nullValue
  | .fin q => .num q
  | .nonfinite => .nan

/-- Filter step of getTrend: keep x with x not null and isFinite(x), with the
type narrowing to the numeric payload. -/
def finiteValue : JsNumber → Option ℚ
  | .num q => some q
  | _ => none

/-- Trend extraction helper getTrend, from cruxService.ts lines 134-144: with
a history metric, map entries through the Number coercion and filter out null
and non-finite results; without one, fall back to the single current value. -/
def getTrend (historyMetric : Option CrUXHistoryMetric) (currentMetric : ℚ) : List ℚ :=
  match historyMetric with
  | some hm => (hm.percentilesTimeseries.p75s.map toNumberOrNull).filterMap finiteValue
  | none => [currentMetric]

/-- Regression heuristic on the LCP trend, from cruxService.ts lines 153-160:
with at least 4 points, a positive first point, and a last point exceeding the
first by more than 15 percent, emit one degradation string with the rounded
percentage increase. -/
def lcpRegressionFlag (lcpTrend : List ℚ) : List String :=
  if 4 ≤ lcpTrend.length then
    if 0 < lcpTrend.headD 0 ∧ lcpTrend.headD 0 * 1.15 < lcpTrend.getLastD 0 then
      ["LCP degraded by " ++
        toString (jsRound ((lcpTrend.getLastD 0 - lcpTrend.headD 0) / lcpTrend.headD 0 * 100))
        ++ "%"]
    else []
  else []

/-- Metric extractor processRawData, from cruxService.ts lines 119-187. The
Number coercion applied to the CLS value in the source is the identity on this
already-numeric model. -/
def processRawData (current : CrUXResponse) (history : Option CrUXHistoryResponse) :
    FormFactorAnalysis :=
  let metrics := current.record.metrics
  let historyMetrics := history.map fun h => h.record.metrics
  let historyCollectionPeriods := history.bind fun h => h.record.collectionPeriods
  let lcp := (metrics.largest_contentful_paint.map fun m => m.percentiles.p75).getD 0
  let cls := (metrics.cumulative_layout_shift.map fun m => m.percentiles.p75).getD 0
  let inp := (metrics.interaction_to_next_paint.map fun m => m.percentiles.p75).getD 0
  let lcpTrend := getTrend (historyMetrics.bind fun m => m.largest_contentful_paint) lcp
  let clsTrend := getTrend (historyMetrics.bind fun m => m.cumulative_layout_shift) cls
  let inpTrend := getTrend (historyMetrics.bind fun m => m.interaction_to_next_paint) inp
  let regressions :=
    lcpRegressionFlag lcpTrend
      ++ (if rateLCP lcp = .poor then ["LCP is Poor (" ++ toString lcp ++ "ms)"] else [])
      ++ (if rateCLS cls = .poor then ["CLS is Poor (" ++ toString cls ++ ")"] else [])
      ++ (if rateINP inp = .poor then ["INP is Poor (" ++ toString inp ++ "ms)"] else [])
  let collectionPeriod :=
    match current.record.collectionPeriod with
    | some cp => formatPeriod cp
    | none => "Unknown"
  let dates := historyCollectionPeriods.map fun ps => ps.map formatPeriod
  { metrics :=
      { lcp := ⟨lcp, rateLCP lcp⟩
        cls := ⟨cls, rateCLS cls⟩
        inp := ⟨inp, rateINP inp⟩ }
    history := ⟨lcpTrend, clsTrend, inpTrend, dates⟩
    regressions := regressions
    collectionPeriod := collectionPeriod }

/-- Snapshot with the three tracked metrics present, used to state the
all-metrics-present rating claims. -/
def mkSnapshot (lv cv iv : ℚ) (cp : Option CrUXCollectionPeriod) : CrUXResponse :=
  ⟨⟨⟨some ⟨⟨lv⟩⟩, some ⟨⟨cv⟩⟩, some ⟨⟨iv⟩⟩⟩, cp⟩⟩

end Crux

namespace Crux

/-! Shared lemmas about the three-level rating helpers. -/

/-- Common shape of the three rating helpers: good up to the first threshold,
needs-improvement up to the second, poor past it. -/
def rateThresholds (t1 t2 val : ℚ) : Rating :=
  if val ≤ t1 then .good else if val ≤ t2 then .needsImprovement else .poor

lemma rateLCP_eq_thresholds (v : ℚ) : rateLCP v = rateThresholds 2500 4000 v := rfl

lemma rateCLS_eq_thresholds (v : ℚ) : rateCLS v = rateThresholds 0.1 0.25 v := rfl

lemma rateINP_eq_thresholds (v : ℚ) : rateINP v = rateThresholds 200 500 v := rfl

lemma rateThresholds_good (t1 t2 v : ℚ) :
    rateThresholds t1 t2 v = .good ↔ v ≤ t1 := by
  unfold rateThresholds
  split_ifs with h1 h2 <;> simp [h1]

lemma rateThresholds_needs (t1 t2 v : ℚ) :
    rateThresholds t1 t2 v = .needsImprovement ↔ t1 < v ∧ v ≤ t2 := by
  unfold rateThresholds
  split_ifs with h1 h2
  · simp [not_lt.mpr h1]
  · simp [not_le.mp h1, h2]
  · simp [h2]

lemma rateThresholds_poor (t1 t2 v : ℚ) (h : t1 ≤ t2) :
    rateThresholds t1 t2 v = .poor ↔ t2 < v := by
  unfold rateThresholds
  split_ifs with h1 h2
  · simp [not_lt.mpr (h1.trans h)]
  · simp [not_lt.mpr h2]
  · simp [not_le.mp h2]

lemma processRawData_lcp_rating (lv cv iv : ℚ) (cp : Option CrUXCollectionPeriod)
    (hist : Option CrUXHistoryResponse) :
    (processRawData (mkSnapshot lv cv iv cp) hist).metrics.lcp.rating = rateLCP lv := rfl

lemma processRawData_cls_rating (lv cv iv : ℚ) (cp : Option CrUXCollectionPeriod)
    (hist : Option CrUXHistoryResponse) :
    (processRawData (mkSnapshot lv cv iv cp) hist).metrics.cls.rating = rateCLS cv := rfl

lemma processRawData_inp_rating (lv cv iv : ℚ) (cp : Option CrUXCollectionPeriod)
    (hist : Option CrUXHistoryResponse) :
    (processRawData (mkSnapshot lv cv iv cp) hist).metrics.inp.rating = rateINP iv := rfl

/-- C2: for every snapshot with all three tracked metrics present, the ratings
produced by the metric extractor match the fixed threshold table exactly
(LCP at 2500/4000, CLS at 0.10/0.25, INP at 200/500), including the boundary
values LCP equal 2500 good, 2501 needs-improvement, 4000 needs-improvement,
4001 poor. -/
theorem ratings_match_threshold_table (lv cv iv : ℚ) (cp : Option CrUXCollectionPeriod)
    (hist : Option CrUXHistoryResponse) :
    (((processRawData (mkSnapshot lv cv iv cp) hist).metrics.lcp.rating = .good ↔ lv ≤ 2500)
      ∧ ((processRawData (mkSnapshot lv cv iv cp) hist).metrics.lcp.rating = .needsImprovement
          ↔ 2500 < lv ∧ lv ≤ 4000)
      ∧ ((processRawData (mkSnapshot lv cv iv cp) hist).metrics.lcp.rating = .poor ↔ 4000 < lv))
    ∧ (((processRawData (mkSnapshot lv cv iv cp) hist).metrics.cls.rating = .good ↔ cv ≤ 0.1)
      ∧ ((processRawData (mkSnapshot lv cv iv cp) hist).metrics.cls.rating = .needsImprovement
          ↔ 0.1 < cv ∧ cv ≤ 0.25)
      ∧ ((processRawData (mkSnapshot lv cv iv cp) hist).metrics.cls.rating = .poor ↔ 0.25 < cv))
    ∧ (((processRawData (mkSnapshot lv cv iv cp) hist).metrics.inp.rating = .good ↔ iv ≤ 200)
      ∧ ((processRawData (mkSnapshot lv cv iv cp) hist).metrics.inp.rating = .needsImprovement
          ↔ 200 < iv ∧ iv ≤ 500)
      ∧ ((processRawData (mkSnapshot lv cv iv cp) hist).metrics.inp.rating = .poor ↔ 500 < iv))
    ∧ ((processRawData (mkSnapshot 2500 0 0 none) none).metrics.lcp.rating = .good
      ∧ (processRawData (mkSnapshot 2501 0 0 none) none).metrics.lcp.rating = .needsImprovement
      ∧ (processRawData (mkSnapshot 4000 0 0 none) none).metrics.lcp.rating = .needsImprovement
      ∧ (processRawData (mkSnapshot 4001 0 0 none) none).metrics.lcp.rating = .poor) := by
  refine ⟨⟨?_, ?_, ?_⟩, ⟨?_, ?_, ?_⟩, ⟨?_, ?_, ?_⟩, by decide, by decide, by decide, by decide⟩
  · rw [processRawData_lcp_rating, rateLCP_eq_thresholds]; exact rateThresholds_good _ _ _
  · rw [processRawData_lcp_rating, rateLCP_eq_thresholds]; exact rateThresholds_needs _ _ _
  · rw [processRawData_lcp_rating, rateLCP_eq_thresholds]
    exact rateThresholds_poor _ _ _ (by norm_num)
  · rw [processRawData_cls_rating, rateCLS_eq_thresholds]; exact rateThresholds_good _ _ _
  · rw [processRawData_cls_rating, rateCLS_eq_thresholds]; exact rateThresholds_needs _ _ _
  · rw [processRawData_cls_rating, rateCLS_eq_thresholds]
    exact rateThresholds_poor _ _ _ (by norm_num)
  · rw [processRawData_inp_rating, rateINP_eq_thresholds]; exact rateThresholds_good _ _ _
  · rw [processRawData_inp_rating, rateINP_eq_thresholds]; exact rateThresholds_needs _ _ _
  · rw [processRawData_inp_rating, rateINP_eq_thresholds]
    exact rateThresholds_poor _ _ _ (by norm_num)

/-- Specification-side description of trend extraction: exactly the entries of
the series that coerce to finite numbers, kept in their original order, with
null and non-finite entries removed. -/
def finiteEntries (entries : List P75Entry) : List ℚ :=
  entries.filterMap fun e =>
    match e with
    | .fin q => some q
    | _ => none

lemma filterMap_map_finite (es : List P75Entry) :
    (es.map toNumberOrNull).filterMap finiteValue = finiteEntries es := by
  induction es with
  | nil => rfl
  | cons e es ih =>
    cases e with
    | nullEntry => exact ih
    | fin q => exact congrArg (List.cons q) ih
    | nonfinite => exact ih

/-- C5: with a history series supplied, the extracted trend equals exactly the
finite-coercing entries of the series in original order (nulls and non-finite
entries removed, never replaced by zero); without a history, the trend is the
single-element list holding the current value. -/
theorem trend_extraction_exact (hm : CrUXHistoryMetric) (cur : ℚ) :
    getTrend (some hm) cur = finiteEntries hm.percentilesTimeseries.p75s
    ∧ getTrend none cur = [cur] := by
  constructor
  · exact filterMap_map_finite hm.percentilesTimeseries.p75s
  · rfl

end Crux

namespace Crux

/-- Current snapshot used by the concrete regression probes: all three metric
values rate good, so the regressions list can only come from the LCP trend
heuristic. -/
def regressionProbe : CrUXResponse := mkSnapshot 1200 0.05 100 none

/-- History response whose LCP p75 series is the given numeric list and whose
other metrics are absent. -/
def lcpHistory (qs : List ℚ) : CrUXHistoryResponse :=
  ⟨⟨⟨some ⟨⟨qs.map P75Entry.fin⟩⟩, none, none⟩, none⟩⟩

/-- C6: the regression heuristic of the metric extractor is evaluated on the
LCP trend: trends with fewer than 4 points are never flagged; for a trend with
at least 4 points and a positive first point, a degradation string is emitted
exactly when the last point exceeds the first by more than 15 percent, and the
string reports the rounded percentage increase; concretely the trend
[1000, 1000, 1000, 1151] is flagged at 15 percent while
[1000, 1000, 1000, 1150] (exactly at the boundary) is not. -/
theorem lcp_regression_heuristic :
    (∀ t : List ℚ, t.length < 4 → lcpRegressionFlag t = [])
    ∧ (∀ t : List ℚ, 4 ≤ t.length → 0 < t.headD 0 →
        (lcpRegressionFlag t ≠ [] ↔ t.headD 0 * 1.15 < t.getLastD 0))
    ∧ (∀ t : List ℚ, 4 ≤ t.length → 0 < t.headD 0 → t.headD 0 * 1.15 < t.getLastD 0 →
        lcpRegressionFlag t =
          ["LCP degraded by " ++
            toString (jsRound ((t.getLastD 0 - t.headD 0) / t.headD 0 * 100)) ++ "%"])
    ∧ (processRawData regressionProbe (some (lcpHistory [1000, 1000, 1000, 1151]))).regressions
        = ["LCP degraded by 15%"]
    ∧ (processRawData regressionProbe (some (lcpHistory [1000, 1000, 1000, 1150]))).regressions
        = [] := by
  refine ⟨?_, ?_, ?_, ?_, ?_⟩
  · intro t ht
    unfold lcpRegressionFlag
    rw [if_neg (by omega)]
  · intro t h4 hpos
    unfold lcpRegressionFlag
    rw [if_pos h4]
    split_ifs with hc
    · exact ⟨fun _ => hc.2, fun _ => by simp⟩
    · simpa using fun hlt => hc ⟨hpos, hlt⟩
  · intro t h4 hpos hlt
    unfold lcpRegressionFlag
    rw [if_pos h4, if_pos ⟨hpos, hlt⟩]
  · norm_num [processRawData, regressionProbe, mkSnapshot, lcpHistory, getTrend,
      toNumberOrNull, finiteValue, lcpRegressionFlag, jsRound, rateLCP, rateCLS, rateINP,
      List.filterMap_cons]
    exact ⟨rfl, by decide⟩
  · norm_num [processRawData, regressionProbe, mkSnapshot, lcpHistory, getTrend,
      toNumberOrNull, finiteValue, lcpRegressionFlag, jsRound, rateLCP, rateCLS, rateINP,
      List.filterMap_cons]
    decide

/-- Concrete run of the C6 theorem on the trend [1000, 1000, 1000, 1200]. -/
theorem lcp_regression_heuristic_witness :
    4 ≤ ([1000, 1000, 1000, 1200] : List ℚ).length
    ∧ (0 : ℚ) < ([1000, 1000, 1000, 1200] : List ℚ).headD 0
    ∧ ([1000, 1000, 1000, 1200] : List ℚ).headD 0 * 1.15
        < ([1000, 1000, 1000, 1200] : List ℚ).getLastD 0
    ∧ lcpRegressionFlag [1000, 1000, 1000, 1200] ≠ [] :=
  ⟨by decide, by decide, by norm_num,
    (lcp_regression_heuristic.2.1 [1000, 1000, 1000, 1200] (by decide) (by decide)).mpr
      (by norm_num)⟩

end Crux

namespace Crux

/-! Parallel Fetch Aggregator: fetchWithRetry and fetchRawData,
from src/services/cruxService.ts lines 20-113. The network transport is an
oracle: for each logical request, a function from the attempt index to the
settled outcome of that attempt (a rejection with a message, or an HTTP
response whose body either fails JSON decoding or decodes to a value). -/

/-- Whitespace test used by the trim model (the common JavaScript whitespace
characters). -/
def isJsSpace (c : Char) : Bool := c == ' ' || c == '\t' || c == '\n' || c == '\r'

/-- String.prototype.trim, modelled over the character list. -/
def jsTrim (s : String) : String :=
  ⟨((s.data.dropWhile isJsSpace).reverse.dropWhile isJsSpace).reverse⟩

/-- String.prototype.startsWith, modelled over the character list. -/
def jsStartsWith (s pre : String) : Bool := pre.data.isPrefixOf s.data

/-- Outcome of awaiting response.json(): a rejection with a message, or a
decoded value. -/
inductive JsonBody (α : Type)
  | invalid (msg : String)
  | valid (v : α)
deriving DecidableEq, Repr

/-- Settled HTTP response: ok flag, status code, and the body decode outcome. -/
structure HttpResp (α : Type) where
  ok : Bool
  status : Nat
  body : JsonBody α
deriving DecidableEq, Repr

/-- Settled outcome of one fetch attempt: a rejection with the error message,
or a response. -/
inductive NetResult (α : Type)
  | fail (msg : String)
  | resp (r : HttpResp α)
deriving DecidableEq, Repr

/-- Decoded JSON of a record request before validation: an optional
application-level error field and an optional record, itself holding an
optional metrics object, from the shapes read by cruxService.ts. -/
structure RawRecordJson where
  metrics : Option CrUXMetrics
  collectionPeriod : Option CrUXCollectionPeriod
deriving DecidableEq, Repr

/-- Decoded JSON of a snapshot request: optional error field and optional
record shape, as inspected by cruxService.ts lines 70 and 110. -/
structure SnapJson where
  error : Option String
  record : Option RawRecordJson
deriving DecidableEq, Repr

/-- Decoded JSON of a history request: optional error field and optional
record shape, as inspected by cruxService.ts line 76. -/
structure HistJson where
  error : Option String
  record : Option CrUXHistoryRecord
deriving DecidableEq, Repr

/-- Retry wrapper fetchWithRetry, from cruxService.ts lines 20-34: try the
attempt; on a rejection with retries remaining, wait 1000 ms and recurse with
one retry fewer; with no retries left, rethrow. Returns the final outcome
paired with the list of backoff delays performed (in ms). -/
def fetchWithRetry {α : Type} (attempt : Nat → NetResult α) :
    Nat → Nat → Except String (HttpResp α) × List Nat
  | retries, k =>
    match attempt k with
    | .resp r => (.ok r, [])
    | .fail msg =>
      match retries with
      | r + 1 =>
        let rest := fetchWithRetry attempt r (k + 1)
        (rest.1, 1000 :: rest.2)
      | 0 => (.error msg, [])

/-- Network oracle for one (domain, form factor) fetch: the four logical
requests the source can issue, each as a per-attempt outcome function. -/
structure NetEnv where
  proxyRecord : Nat → NetResult SnapJson
  proxyHistory : Nat → NetResult HistJson
  directRecord : Nat → NetResult SnapJson
  directHistory : Nat → NetResult HistJson

/-- Error message of the missing-metrics validation, cruxService.ts line 110. -/
def noMetricsMsg (domain formFactor : String) : String :=
  "No metrics found for " ++ domain ++ " (" ++ formFactor ++ ")"

/-- Validation and narrowing of cruxService.ts line 110: the fetch fails when
the optional chain currentData.record.metrics is absent, and otherwise the
snapshot is used as a CrUXResponse. -/
def checkMetrics (domain formFactor : String) (currentData : SnapJson) :
    Except String CrUXResponse :=
  match currentData.record with
  | none => .error (noMetricsMsg domain formFactor)
  | some r =>
    match r.metrics with
    | none => .error (noMetricsMsg domain formFactor)
    | some m => .ok ⟨⟨m, r.collectionPeriod⟩⟩

/-- Catch clause of the proxy branch, cruxService.ts lines 81-87: a thrown
error whose message is the browser-level "Failed to fetch" is replaced by a
proxy-configuration hint, every other error is rethrown unchanged. -/
def proxyCatch (msg : String) : String :=
  if msg = "Failed to fetch" then "Connection Failed. Check Proxy URL and Permissions."
  else msg

/-- JSON.stringify of a string error payload, as in the Proxy Error message. -/
def jsonStringify (s : String) : String := "\"" ++ s ++ "\""

/-- Result of a successful fetchRawData call: the validated snapshot response
and the optional history JSON. -/
structure FetchedRaw where
  currentData : CrUXResponse
  historyData : Option HistJson
deriving DecidableEq, Repr

/-- Proxy-mode try block of fetchRawData, cruxService.ts lines 59-80: both
proxied requests go through fetchWithRetry with one retry and are joined with
Promise.all, so a rejection of either one rejects the join; a non-ok record
response, a record decode failure (replaced by an error-field object), or an
application-level record error throws; a history response that is ok but
fails decoding throws from inside the try block; a history response that is
not ok, carries an error field, or lacks the record shape leaves the history
null. -/
def proxyFetchRaw (net : NetEnv) : Except String (SnapJson × Option HistJson) :=
  match (fetchWithRetry net.proxyRecord 1 0).1, (fetchWithRetry net.proxyHistory 1 0).1 with
  | .error msg, _ => .error msg
  | .ok _, .error msg => .error msg
  | .ok recordRes, .ok historyRes =>
    if recordRes.ok = false then .error ("Proxy HTTP " ++ toString recordRes.status)
    else
      let json : SnapJson :=
        match recordRes.body with
        | .invalid _ => ⟨some "Invalid JSON", none⟩
        | .valid j => j
      match json.error with
      | some e => .error ("Proxy Error: " ++ jsonStringify e)
      | none =>
        if historyRes.ok then
          match historyRes.body with
          | .invalid msg => .error msg
          | .valid historyJson =>
            if historyJson.error.isNone && historyJson.record.isSome then
              .ok (json, some historyJson)
            else .ok (json, none)
        else .ok (json, none)

/-- Direct-mode branch of fetchRawData, cruxService.ts lines 89-108: the
snapshot request uses plain fetch (no retry); a rejection propagates, a non-ok
status throws a generic error, a decode failure throws; the history request is
wrapped in its own try/catch, so any rejection or decode failure only leaves
the history null, while an ok decoded body is stored without validation. -/
def directFetchRaw (net : NetEnv) : Except String (SnapJson × Option HistJson) :=
  match net.directRecord 0 with
  | .fail msg => .error msg
  | .resp currentRes =>
    if currentRes.ok = false then .error "CrUX API Error"
    else
      match currentRes.body with
      | .invalid msg => .error msg
      | .valid json =>
        let historyData : Option HistJson :=
          match net.directHistory 0 with
          | .fail _ => none
          | .resp historyRes =>
            if historyRes.ok then
              match historyRes.body with
              | .invalid _ => none
              | .valid historyJson => some historyJson
            else none
        .ok (json, historyData)

/-- Aggregator fetchRawData for one (domain, form factor), cruxService.ts
lines 47-113: choose proxy or direct transport by whether the trimmed
credential starts with http, run the branch (the proxy branch inside the
catch clause), then apply the missing-metrics validation of line 110. -/
def fetchRawData (domain apiKeyOrProxy formFactor : String) (net : NetEnv) :
    Except String FetchedRaw :=
  match (if jsStartsWith (jsTrim apiKeyOrProxy) "http" then
          (proxyFetchRaw net).mapError proxyCatch
        else directFetchRaw net) with
  | .error msg => .error msg
  | .ok (currentData, historyData) =>
    match checkMetrics domain formFactor currentData with
    | .error msg => .error msg
    | .ok resp => .ok ⟨resp, historyData⟩

end Crux


namespace Crux

/-! Claims about the aggregator: validation (C3), history failure handling
(C4), and the retry policy (C9). -/

lemma fetchWithRetry_eq_resp {α : Type} (attempt : Nat → NetResult α) (retries k : Nat)
    (r : HttpResp α) (h : attempt k = .resp r) :
    fetchWithRetry attempt retries k = (.ok r, []) := by
  conv_lhs => unfold fetchWithRetry
  rw [h]

lemma fetchWithRetry_exhausted {α : Type} (attempt : Nat → NetResult α) (k : Nat)
    (msg : String) (h : attempt k = .fail msg) :
    fetchWithRetry attempt 0 k = (.error msg, []) := by
  conv_lhs => unfold fetchWithRetry
  rw [h]

lemma fetchWithRetry_one_fail_then_resp {α : Type} (attempt : Nat → NetResult α)
    (msg : String) (r : HttpResp α) (h0 : attempt 0 = .fail msg) (h1 : attempt 1 = .resp r) :
    fetchWithRetry attempt 1 0 = (.ok r, [1000]) := by
  conv_lhs => unfold fetchWithRetry
  rw [h0]
  show ((fetchWithRetry attempt 0 1).1, 1000 :: (fetchWithRetry attempt 0 1).2) = _
  rw [fetchWithRetry_eq_resp attempt 0 1 r h1]

lemma fetchWithRetry_both_fail {α : Type} (attempt : Nat → NetResult α)
    (msg0 msg1 : String) (h0 : attempt 0 = .fail msg0) (h1 : attempt 1 = .fail msg1) :
    fetchWithRetry attempt 1 0 = (.error msg1, [1000]) := by
  conv_lhs => unfold fetchWithRetry
  rw [h0]
  show ((fetchWithRetry attempt 0 1).1, 1000 :: (fetchWithRetry attempt 0 1).2) = _
  rw [fetchWithRetry_exhausted attempt 1 msg1 h1]

/-- Metrics object with the three tracked metrics present, used by the
concrete network fixtures. -/
def sampleMetrics : CrUXMetrics := ⟨some ⟨⟨1000⟩⟩, some ⟨⟨0⟩⟩, some ⟨⟨100⟩⟩⟩

/-- Well-formed decoded snapshot JSON with the three tracked metrics. -/
def goodRecordJson : SnapJson := ⟨none, some ⟨some sampleMetrics, none⟩⟩

/-- Decoded snapshot JSON whose metrics object is present but holds none of
the three tracked metric keys. -/
def emptyMetricsJson : SnapJson := ⟨none, some ⟨some ⟨none, none, none⟩, none⟩⟩

/-- Network fixture delivering the empty-metrics snapshot over the proxy, with
history unavailable. -/
def emptyMetricsNet : NetEnv where
  proxyRecord := fun _ => .resp ⟨true, 200, .valid emptyMetricsJson⟩
  proxyHistory := fun _ => .resp ⟨false, 500, .valid ⟨none, none⟩⟩
  directRecord := fun _ => .resp ⟨true, 200, .valid emptyMetricsJson⟩
  directHistory := fun _ => .resp ⟨false, 500, .valid ⟨none, none⟩⟩

/-- C3 counterexample: a snapshot whose metrics object is present but lacks
all three tracked metric keys is NOT rejected by the aggregator (the source
only checks that the optional chain record.metrics is non-null), and the
extractor then produces the silently-empty all-zero, all-good analysis the
claim forbids. -/
theorem missing_metrics_keys_not_rejected :
    fetchRawData "https://example.com" "https://proxy.example" "PHONE" emptyMetricsNet
      = .ok ⟨⟨⟨⟨none, none, none⟩, none⟩⟩, none⟩
    ∧ (processRawData ⟨⟨⟨none, none, none⟩, none⟩⟩ none).metrics
      = ⟨⟨0, .good⟩, ⟨0, .good⟩, ⟨0, .good⟩⟩ := by
  constructor
  · rfl
  · norm_num [processRawData, rateLCP, rateCLS, rateINP, getTrend]

/-- C3 amended: the aggregator fails with the domain-and-form-factor
identifying error exactly when the optional chain record.metrics of the
decoded snapshot is absent; when the metrics object is present (even with
none of the three tracked keys), validation succeeds. -/
theorem metrics_object_check_characterization (domain formFactor : String) (s : SnapJson) :
    (s.record.bind RawRecordJson.metrics = none →
      checkMetrics domain formFactor s = .error (noMetricsMsg domain formFactor))
    ∧ (∀ r m, s.record = some r → r.metrics = some m →
      checkMetrics domain formFactor s = .ok ⟨⟨m, r.collectionPeriod⟩⟩) := by
  constructor
  · intro h
    unfold checkMetrics
    rcases hs : s.record with _ | r
    · rfl
    · rw [hs] at h
      replace h : r.metrics = none := h
      simp only [h]
  · intro r m hr hm
    unfold checkMetrics
    rw [hr]
    simp only [hm]

/-- Concrete run of the C3 amended theorem: a snapshot with no record shape
at all is rejected with the identifying error, and a snapshot with an empty
metrics object passes validation. -/
theorem metrics_object_check_characterization_witness :
    ((⟨none, none⟩ : SnapJson).record.bind RawRecordJson.metrics = none)
    ∧ checkMetrics "https://example.com" "PHONE" ⟨none, none⟩
      = .error (noMetricsMsg "https://example.com" "PHONE")
    ∧ ((⟨none, some ⟨some ⟨none, none, none⟩, none⟩⟩ : SnapJson).record
      = some ⟨some ⟨none, none, none⟩, none⟩)
    ∧ checkMetrics "https://example.com" "PHONE" ⟨none, some ⟨some ⟨none, none, none⟩, none⟩⟩
      = .ok ⟨⟨⟨none, none, none⟩, none⟩⟩ :=
  ⟨rfl,
    (metrics_object_check_characterization "https://example.com" "PHONE" ⟨none, none⟩).1 rfl,
    rfl,
    (metrics_object_check_characterization "https://example.com" "PHONE"
      ⟨none, some ⟨some ⟨none, none, none⟩, none⟩⟩).2 _ _ rfl rfl⟩

/-- Network fixture in which the snapshot succeeds and the history request
fails at network level (in both transport modes). -/
def historyNetFailNet : NetEnv where
  proxyRecord := fun _ => .resp ⟨true, 200, .valid goodRecordJson⟩
  proxyHistory := fun _ => .fail "Failed to fetch"
  directRecord := fun _ => .resp ⟨true, 200, .valid goodRecordJson⟩
  directHistory := fun _ => .fail "Failed to fetch"

/-- C4 counterexample: in proxy mode a network-level history failure (even
after the retry) rejects the Promise.all join, so the whole form-factor fetch
fails instead of succeeding with a null history. -/
theorem proxy_history_network_failure_fatal :
    fetchRawData "https://example.com" "https://proxy.example" "PHONE" historyNetFailNet
      = .error "Connection Failed. Check Proxy URL and Permissions." := rfl

/-- Benign history outcomes in proxy mode: a settled response that is not ok,
or one that is ok and decodes to a body carrying an application-level error
field or lacking the record shape. -/
def benignProxyHistory : NetResult HistJson → Bool
  | .fail _ => false
  | .resp h =>
    if h.ok then
      match h.body with
      | .invalid _ => false
      | .valid hj => hj.error.isSome || hj.record.isNone
    else true

/-- History outcomes in direct mode that the source recovers from locally:
rejection, non-ok status, or a decode failure of an ok response. -/
def failedDirectHistory : NetResult HistJson → Bool
  | .fail _ => true
  | .resp h =>
    if h.ok then
      match h.body with
      | .invalid _ => true
      | .valid _ => false
    else true

lemma proxyFetchRaw_benign (net : NetEnv) (m : CrUXMetrics)
    (cp : Option CrUXCollectionPeriod) (st : Nat)
    (hrec : net.proxyRecord 0 = .resp ⟨true, st, .valid ⟨none, some ⟨some m, cp⟩⟩⟩)
    (hben : benignProxyHistory (net.proxyHistory 0) = true) :
    proxyFetchRaw net = .ok (⟨none, some ⟨some m, cp⟩⟩, none) := by
  unfold proxyFetchRaw
  rw [fetchWithRetry_eq_resp net.proxyRecord 1 0 _ hrec]
  rcases hh : net.proxyHistory 0 with msg | h
  · rw [hh] at hben
    simp [benignProxyHistory] at hben
  · rw [fetchWithRetry_eq_resp net.proxyHistory 1 0 _ hh]
    rw [hh] at hben
    obtain ⟨hok, hst, hbody⟩ := h
    cases hok
    · rcases hbody with msg | hj <;> simp
    · rcases hbody with msg | ⟨he, hr⟩
      · simp [benignProxyHistory] at hben
      · simp only [benignProxyHistory] at hben
        cases he <;> cases hr <;> simp_all

lemma directFetchRaw_failedHistory (net : NetEnv) (m : CrUXMetrics)
    (cp : Option CrUXCollectionPeriod) (st : Nat) (e : Option String)
    (hrec : net.directRecord 0 = .resp ⟨true, st, .valid ⟨e, some ⟨some m, cp⟩⟩⟩)
    (hfail : failedDirectHistory (net.directHistory 0) = true) :
    directFetchRaw net = .ok (⟨e, some ⟨some m, cp⟩⟩, none) := by
  unfold directFetchRaw
  rw [hrec]
  rcases hh : net.directHistory 0 with msg | ⟨hok, hst, hbody⟩
  · simp
  · rw [hh] at hfail
    cases hok
    · rcases hbody with msg | hj <;> simp
    · rcases hbody with msg | hj
      · simp
      · simp [failedDirectHistory] at hfail

/-- C4 amended: with a successful, valid snapshot, a history failure yields a
null history and fully populated snapshot metrics in exactly these cases: in
proxy mode, a settled history response with non-ok status, an error field, or
a missing record shape; in direct mode, any rejection, non-ok status, or
decode failure. A proxy-mode history rejection, or a decode failure of an
ok-status history response in proxy mode, is fatal instead (see the
counterexample). -/
theorem history_failure_nonfatal_amended :
    (∀ (domain key ff : String) (net : NetEnv) (m : CrUXMetrics)
      (cp : Option CrUXCollectionPeriod) (st : Nat),
      jsStartsWith (jsTrim key) "http" = true →
      net.proxyRecord 0 = .resp ⟨true, st, .valid ⟨none, some ⟨some m, cp⟩⟩⟩ →
      benignProxyHistory (net.proxyHistory 0) = true →
      fetchRawData domain key ff net = .ok ⟨⟨⟨m, cp⟩⟩, none⟩)
    ∧ (∀ (domain key ff : String) (net : NetEnv) (m : CrUXMetrics)
      (cp : Option CrUXCollectionPeriod) (st : Nat) (e : Option String),
      jsStartsWith (jsTrim key) "http" = false →
      net.directRecord 0 = .resp ⟨true, st, .valid ⟨e, some ⟨some m, cp⟩⟩⟩ →
      failedDirectHistory (net.directHistory 0) = true →
      fetchRawData domain key ff net = .ok ⟨⟨⟨m, cp⟩⟩, none⟩) := by
  constructor
  · intro domain key ff net m cp st hp hrec hben
    unfold fetchRawData
    rw [proxyFetchRaw_benign net m cp st hrec hben, hp]
    simp [checkMetrics, Except.mapError]
  · intro domain key ff net m cp st e hd hrec hfail
    unfold fetchRawData
    rw [directFetchRaw_failedHistory net m cp st e hrec hfail, hd]
    simp [checkMetrics, Except.mapError]

/-- Network fixture whose snapshot succeeds and whose history request settles
with a non-ok status in proxy mode. -/
def benignHistoryNet : NetEnv where
  proxyRecord := fun _ => .resp ⟨true, 200, .valid goodRecordJson⟩
  proxyHistory := fun _ => .resp ⟨false, 404, .valid ⟨none, none⟩⟩
  directRecord := fun _ => .resp ⟨true, 200, .valid goodRecordJson⟩
  directHistory := fun _ => .fail "Failed to fetch"

/-- Concrete run of the C4 amended theorem: proxy mode, non-ok history
response, fetch succeeds with null history and populated metrics. -/
theorem history_failure_nonfatal_amended_witness :
    jsStartsWith (jsTrim "https://proxy.example") "http" = true
    ∧ benignHistoryNet.proxyRecord 0
      = .resp ⟨true, 200, .valid ⟨none, some ⟨some sampleMetrics, none⟩⟩⟩
    ∧ benignProxyHistory (benignHistoryNet.proxyHistory 0) = true
    ∧ fetchRawData "https://example.com" "https://proxy.example" "PHONE" benignHistoryNet
      = .ok ⟨⟨⟨sampleMetrics, none⟩⟩, none⟩ :=
  ⟨rfl, rfl, rfl,
    history_failure_nonfatal_amended.1 "https://example.com" "https://proxy.example" "PHONE"
      benignHistoryNet sampleMetrics none 200 rfl rfl rfl⟩

/-- Network fixture whose record request fails on the first attempt and would
succeed on the second, in both transport modes. -/
def directNoRetryNet : NetEnv where
  proxyRecord := fun k => if k = 0 then .fail "boom" else .resp ⟨true, 200, .valid goodRecordJson⟩
  proxyHistory := fun _ => .resp ⟨false, 500, .valid ⟨none, none⟩⟩
  directRecord := fun k => if k = 0 then .fail "boom" else .resp ⟨true, 200, .valid goodRecordJson⟩
  directHistory := fun _ => .resp ⟨false, 500, .valid ⟨none, none⟩⟩

/-- C9 counterexample: in direct (API key) mode the snapshot request is issued
with plain fetch and is NOT retried: with a first-attempt failure whose second
attempt would succeed, the whole fetch fails with the first-attempt error,
while the identical attempt oracle in proxy mode succeeds thanks to the retry
wrapper. -/
theorem direct_mode_no_retry :
    directNoRetryNet.directRecord 1 = .resp ⟨true, 200, .valid goodRecordJson⟩
    ∧ fetchRawData "https://example.com" "AIzaSyApiKey123" "PHONE" directNoRetryNet
      = .error "boom"
    ∧ fetchRawData "https://example.com" "https://proxy.example" "PHONE" directNoRetryNet
      = .ok ⟨⟨⟨sampleMetrics, none⟩⟩, none⟩ :=
  ⟨rfl, rfl, rfl⟩

/-- C9 amended: requests issued through the proxy-mode retry wrapper are
retried exactly once after a fixed 1000 ms backoff: a first-attempt success
uses one attempt and no backoff; a first-attempt failure is retried once after
a 1000 ms delay and the second outcome (success or failure) is final. In
direct (API key) mode the snapshot request is not retried: a first-attempt
rejection is immediately terminal for the fetch. -/
theorem retry_policy_amended :
    (∀ (α : Type) (attempt : Nat → NetResult α) (r : HttpResp α),
      attempt 0 = .resp r → fetchWithRetry attempt 1 0 = (.ok r, []))
    ∧ (∀ (α : Type) (attempt : Nat → NetResult α) (msg : String) (r : HttpResp α),
      attempt 0 = .fail msg → attempt 1 = .resp r →
      fetchWithRetry attempt 1 0 = (.ok r, [1000]))
    ∧ (∀ (α : Type) (attempt : Nat → NetResult α) (msg0 msg1 : String),
      attempt 0 = .fail msg0 → attempt 1 = .fail msg1 →
      fetchWithRetry attempt 1 0 = (.error msg1, [1000]))
    ∧ (∀ (domain key ff : String) (net : NetEnv) (msg : String),
      jsStartsWith (jsTrim key) "http" = false →
      net.directRecord 0 = .fail msg →
      fetchRawData domain key ff net = .error msg) :=
  ⟨fun _ attempt r h => fetchWithRetry_eq_resp attempt 1 0 r h,
   fun _ attempt msg r h0 h1 => fetchWithRetry_one_fail_then_resp attempt msg r h0 h1,
   fun _ attempt msg0 msg1 h0 h1 => fetchWithRetry_both_fail attempt msg0 msg1 h0 h1,
   fun domain key ff net msg hd hrec => by
     unfold fetchRawData directFetchRaw
     rw [hrec, hd]
     simp⟩

/-- Attempt oracle that fails once and then succeeds, for the C9 witness. -/
def flakyAttempt : Nat → NetResult Nat :=
  fun k => if k = 0 then .fail "transient" else .resp ⟨true, 200, .valid 0⟩

/-- Concrete run of the C9 amended theorem: one failure, one 1000 ms backoff,
then success on the retry. -/
theorem retry_policy_amended_witness :
    flakyAttempt 0 = .fail "transient"
    ∧ flakyAttempt 1 = .resp ⟨true, 200, .valid 0⟩
    ∧ fetchWithRetry flakyAttempt 1 0 = (.ok ⟨true, 200, .valid 0⟩, [1000]) :=
  ⟨rfl, rfl, retry_policy_amended.2.1 Nat flakyAttempt "transient" _ rfl rfl⟩

end Crux

namespace Crux

/-! Workflow state machine: the coordinator of src/App.tsx with the types of
src/types.ts and the constants of src/constants.ts. The three agent calls
(query, historian, interpreter) and the batch comparison are LLM or network
boundaries; they are modelled as a total oracle environment, which is exactly
the every-cycle-succeeds hypothesis of the batch claim. Log timestamps come
from the wall clock and are omitted from the log entries. -/

/-- Workflow states, from the AgentState enum in src/types.ts. -/
inductive AgentState
  | IDLE
  | QUERY
  | HISTORIAN
  | INTERPRETER
  | COMPLETE
  | ERROR
deriving DecidableEq, Repr

/-- Log sources, from the LogEntry type. -/
inductive LogSource
  | Assistant
  | QueryAgent
  | Historian
  | Interpreter
deriving DecidableEq, Repr

/-- Log severities, from the LogEntry type. -/
inductive LogType
  | info
  | success
  | error
  | warning
deriving DecidableEq, Repr

/-- One log line, from the LogEntry type (timestamp omitted: wall clock). -/
structure LogEntry where
  source : LogSource
  message : String
  type : LogType
deriving DecidableEq, Repr

/-- Query-agent slot of the session memory, from the AgentMemory type. -/
structure QueryMemory where
  lastDomain : String
  lastRawResults : Option AnalysisResult
deriving DecidableEq, Repr

/-- Historian slot of the session memory, from the AgentMemory type. -/
structure HistorianMemory where
  lastTrend : Option String
  lastHistoryData : Option (List ℚ × List ℚ)
deriving DecidableEq, Repr

/-- Interpreter slot of the session memory, from the AgentMemory type. -/
structure InterpreterMemory where
  lastAnalysis : Option AnalysisResult
  lastRecommendations : String
deriving DecidableEq, Repr

/-- Session memory, from the AgentMemory type. -/
structure AgentMemory where
  query : QueryMemory
  historian : HistorianMemory
  interpreter : InterpreterMemory
deriving DecidableEq, Repr

/-- INITIAL_LOGS of src/constants.ts. -/
def INITIAL_LOGS : List LogEntry :=
  [⟨.Assistant, "System initialized. Waiting for target domain...", .info⟩]

/-- INITIAL_MEMORY of src/App.tsx. -/
def INITIAL_MEMORY : AgentMemory := ⟨⟨"", none⟩, ⟨none, none⟩, ⟨none, ""⟩⟩

/-- React state of the coordinator component, from the useState declarations
of src/App.tsx. The last two fields are ghost instrumentation: the arguments
of every runBatchComparisonAgent call and the number of runQueryAgent calls
(each such call opens the network fetch for one domain). -/
structure AppState where
  agentState : AgentState
  taskQueue : List String
  totalTasks : Nat
  completedData : List AnalysisResult
  individualReports : List String
  memory : AgentMemory
  logs : List LogEntry
  batchComparisonCalls : List (List AnalysisResult)
  queryAgentCalls : Nat
deriving DecidableEq, Repr

/-- Oracle environment for the agent boundary calls: runQueryAgent,
runHistorianAgent, runInterpreterAgent, runBatchComparisonAgent. Totality
models the every-per-domain-cycle-succeeds hypothesis. -/
structure AgentEnv where
  queryResult : String → AnalysisResult
  historianNotes : String → AnalysisResult → String
  interpreterMarkdown : String → AnalysisResult → String → String
  batchComparison : List AnalysisResult → String

/-- The addLog helper of src/App.tsx (functional setLogs append). -/
def addLog (logs : List LogEntry) (source : LogSource) (message : String)
    (type : LogType) : List LogEntry :=
  logs ++ [⟨source, message, type⟩]

/-- Configuration-error log message, App.tsx line 107. -/
def missingConfigMsg : String :=
  "MISSING CONFIGURATION: Please enter your CrUX API Key or Proxy URL."

/-- Truncation warning message, App.tsx line 123. -/
def truncationWarningMsg : String :=
  "Batch size limited to 10. Processing the first 10 URLs."

/-- Queue initialization message, App.tsx line 135. -/
def initQueueMsg (n : Nat) : String :=
  "Initializing Intelligence System. Queue: " ++ toString n

/-- String.prototype.toLowerCase, modelled over the character list (ASCII). -/
def jsToLower (s : String) : String := ⟨s.data.map Char.toLower⟩

/-- Case-insensitive test of the regex for an http or https scheme,
App.tsx line 114. -/
def hasHttpScheme (s : String) : Bool :=
  jsStartsWith (jsToLower s) "http://" || jsStartsWith (jsToLower s) "https://"

/-- Per-entry normalization of startAudit, App.tsx lines 112-118: trim, then
prefix the https scheme when a scheme is missing and the entry is non-empty. -/
def normalizeTarget (s : String) : String :=
  let clean := jsTrim s
  if clean != "" && !(hasHttpScheme clean) then "https://" ++ clean else clean

/-- Comma split of a character list, grouping the characters between
separators (String.prototype.split with a one-character separator). -/
def splitChars (sep : Char) : List Char → List (List Char)
  | [] => [[]]
  | c :: cs =>
    let rest := splitChars sep cs
    if c = sep then [] :: rest
    else
      match rest with
      | [] => [[c]]
      | g :: gs => (c :: g) :: gs

/-- String.prototype.split on a comma, modelled over the character list. -/
def jsSplitOnComma (s : String) : List String := (splitChars ',' s.data).map fun l => ⟨l⟩

/-- Target parsing of startAudit, App.tsx lines 112-118: split the input on
commas, normalize every entry, and drop the empty ones. -/
def parseTargets (input : String) : List String :=
  ((jsSplitOnComma input).map normalizeTarget).filter fun s => s != ""

/-- The startAudit callback of src/App.tsx lines 100-137. An empty input
returns without change; an empty credential logs the configuration error and
moves to ERROR without touching the queue; otherwise the targets are parsed,
truncated to 10 with a warning when more were submitted, and the run state is
reset. The truncation warning of line 123 is appended to the pre-reset log
list, and the reset of line 128 then replaces the whole log list with
INITIAL_LOGS, so the warning never reaches the observable log state. -/
def startAudit (targetInput cruxKey : String) (s : AppState) : AppState :=
  if targetInput = "" then s
  else if cruxKey = "" then
    { s with
      logs := addLog s.logs .Assistant missingConfigMsg .error
      agentState := .ERROR }
  else
    let targets0 := parseTargets targetInput
    if targets0 = [] then s
    else
      let warnedLogs :=
        if 10 < targets0.length then addLog s.logs .Assistant truncationWarningMsg .warning
        else s.logs
      let targets := if 10 < targets0.length then targets0.take 10 else targets0
      { s with
        logs := addLog INITIAL_LOGS .Assistant (initQueueMsg targets.length) .info
        memory := INITIAL_MEMORY
        completedData := []
        individualReports := []
        totalTasks := targets.length
        taskQueue := targets
        agentState := .QUERY }

/-- Activity guard of the workflow effect, App.tsx line 146: the effect runs
only outside IDLE, COMPLETE and ERROR. -/
def workflowActive : AgentState → Bool
  | .QUERY => true
  | .HISTORIAN => true
  | .INTERPRETER => true
  | _ => false

/-- Empty-queue arm of processTask, App.tsx lines 155-174: with more than one
processed task, run the batch comparison over the accumulated results and fold
it into memory (recording the call in the ghost field), then log completion
and move to COMPLETE. -/
def finalizeRun (env : AgentEnv) (s : AppState) : AppState :=
  let s1 :=
    if 1 < s.totalTasks then
      let comparison := env.batchComparison s.completedData
      { s with
        logs := addLog s.logs .Interpreter "Finalizing batch comparison..." .info
        batchComparisonCalls := s.batchComparisonCalls ++ [s.completedData]
        memory :=
          { s.memory with
            query := { s.memory.query with lastRawResults := s.completedData.getLast? }
            interpreter :=
              { s.memory.interpreter with
                lastRecommendations := "# 📊 Comparative Conclusion\n\n" ++ comparison } } }
    else s
  { s1 with
    agentState := .COMPLETE
    logs := addLog s1.logs .Assistant "Intelligence cycle complete." .success }

/-- Non-empty-queue arm of processTask, App.tsx lines 176-243: log the task
header, then dispatch on the active state. QUERY commits the query result to
memory and moves to HISTORIAN; HISTORIAN reads the query result from memory
(moving to ERROR on the inconsistency throw), commits the notes and moves to
INTERPRETER; INTERPRETER reads both memory slots, commits the report, appends
to the batch accumulators, pops the queue, and loops back to QUERY when tasks
remain. -/
def runStage (env : AgentEnv) (s : AppState) (currentTarget : String) (rest : List String) :
    AppState :=
  let taskNumber := s.totalTasks - s.taskQueue.length + 1
  let logs0 := addLog s.logs .Assistant
    ("[" ++ toString taskNumber ++ "/" ++ toString s.totalTasks ++ "] Processing " ++ currentTarget)
    .info
  match s.agentState with
  | .QUERY =>
    let logs1 := addLog logs0 .Assistant "Dispatching: Query Agent" .info
    let analyzedData := env.queryResult currentTarget
    { s with
      memory := { s.memory with query := ⟨currentTarget, some analyzedData⟩ }
      logs := addLog logs1 .QueryAgent "Committed raw results to Session Memory." .success
      agentState := .HISTORIAN
      queryAgentCalls := s.queryAgentCalls + 1 }
  | .HISTORIAN =>
    let logs1 := addLog logs0 .Assistant "Dispatching: Historian Agent" .info
    match s.memory.query.lastRawResults with
    | none =>
      { s with
        agentState := .ERROR
        logs := addLog logs1 .Assistant
          "System Failure: Memory inconsistency: Query data not found for Historian." .error }
    | some dataForHistorian =>
      let historianNotes := env.historianNotes currentTarget dataForHistorian
      { s with
        memory := { s.memory with historian := ⟨some historianNotes, none⟩ }
        logs := addLog logs1 .Historian "Committed trend analysis to Session Memory." .success
        agentState := .INTERPRETER }
  | .INTERPRETER =>
    let logs1 := addLog logs0 .Assistant "Dispatching: Interpreter Agent" .info
    match s.memory.query.lastRawResults, s.memory.historian.lastTrend with
    | some dataForInterpreter, some notesForInterpreter =>
      let markdown := env.interpreterMarkdown currentTarget dataForInterpreter notesForInterpreter
      let s1 :=
        { s with
          memory := { s.memory with interpreter := ⟨some dataForInterpreter, markdown⟩ }
          completedData := s.completedData ++ [dataForInterpreter]
          individualReports := s.individualReports ++ [markdown]
          logs := addLog logs1 .Assistant ("Cycle complete for " ++ currentTarget ++ ".") .success
          taskQueue := rest }
      if rest.isEmpty then s1 else { s1 with agentState := .QUERY }
    | _, _ =>
      { s with
        agentState := .ERROR
        logs := addLog logs1 .Assistant
          "System Failure: Memory inconsistency: Data not found for Interpreter." .error }
  | _ => s

/-- One run of the workflow effect, App.tsx lines 145-247: do nothing outside
the active states; with an empty queue finalize, otherwise run the stage for
the queue head. -/
def processTask (env : AgentEnv) (s : AppState) : AppState :=
  if workflowActive s.agentState then
    match s.taskQueue with
    | [] => finalizeRun env s
    | currentTarget :: rest => runStage env s currentTarget rest
  else s

/-- Iterated workflow effect: the state after k effect runs. -/
def runSteps (env : AgentEnv) : Nat → AppState → AppState
  | 0, s => s
  | n + 1, s => runSteps env n (processTask env s)

/-- Idle application state before any run. -/
def initialAppState : AppState :=
  ⟨.IDLE, [], 0, [], [], INITIAL_MEMORY, INITIAL_LOGS, [], 0⟩

/-- State produced by the reset block of startAudit for a parsed target list
(App.tsx lines 127-136). -/
def startState (targets : List String) : AppState :=
  ⟨.QUERY, targets, targets.length, [], [], INITIAL_MEMORY,
    addLog INITIAL_LOGS .Assistant (initQueueMsg targets.length) .info, [], 0⟩

end Crux

namespace Crux

/-- Twelve comma-separated domains, the batch-limit failing input. -/
def twelveDomains : String :=
  "a.com,b.com,c.com,d.com,e.com,f.com,g.com,h.com,i.com,j.com,k.com,l.com"

/-- C7 at the failing input: submitting 12 domains enqueues exactly the first
10 normalized targets (the run starts and the excess is not processed), but
the truncation warning is NOT in the resulting log state: startAudit appends
it to the pre-reset log list and the immediately following reset replaces the
log list with INITIAL_LOGS, erasing it. -/
theorem truncation_without_observable_warning :
    (parseTargets twelveDomains).length = 12
    ∧ (startAudit twelveDomains "apikey" initialAppState).taskQueue
      = ["https://a.com", "https://b.com", "https://c.com", "https://d.com", "https://e.com",
         "https://f.com", "https://g.com", "https://h.com", "https://i.com", "https://j.com"]
    ∧ (startAudit twelveDomains "apikey" initialAppState).taskQueue
      = (parseTargets twelveDomains).take 10
    ∧ (startAudit twelveDomains "apikey" initialAppState).totalTasks = 10
    ∧ (startAudit twelveDomains "apikey" initialAppState).agentState = .QUERY
    ∧ truncationWarningMsg
      ∉ ((startAudit twelveDomains "apikey" initialAppState).logs.map LogEntry.message) := by
  exact ⟨rfl, rfl, rfl, rfl, rfl, by decide⟩

lemma processTask_not_active (env : AgentEnv) (s : AppState)
    (h : workflowActive s.agentState = false) : processTask env s = s := by
  unfold processTask
  rw [h]
  rfl

lemma runSteps_fixpoint (env : AgentEnv) (s : AppState) (h : processTask env s = s)
    (k : Nat) : runSteps env k s = s := by
  induction k with
  | zero => rfl
  | succ k ih =>
    rw [show runSteps env (k + 1) s = runSteps env k (processTask env s) from rfl, h, ih]

/-- C8: a run started with a non-empty input and an empty credential moves
straight to ERROR with the configuration-error log appended, the workflow
effect then never changes the state again (so Fetching is never entered), and
the query-agent boundary is never called: the network call count stays zero
forever. -/
theorem empty_credential_fails_without_network (targetInput : String) (env : AgentEnv)
    (h : targetInput ≠ "") :
    (startAudit targetInput "" initialAppState).agentState = .ERROR
    ∧ (startAudit targetInput "" initialAppState).logs
      = INITIAL_LOGS ++ [⟨.Assistant, missingConfigMsg, .error⟩]
    ∧ (∀ k, runSteps env k (startAudit targetInput "" initialAppState)
      = startAudit targetInput "" initialAppState)
    ∧ ∀ k, (runSteps env k (startAudit targetInput "" initialAppState)).agentState = .ERROR
      ∧ (runSteps env k (startAudit targetInput "" initialAppState)).queryAgentCalls = 0 := by
  have hsa : startAudit targetInput "" initialAppState
      = { initialAppState with
          logs := addLog INITIAL_LOGS .Assistant missingConfigMsg .error
          agentState := .ERROR } := by
    unfold startAudit
    rw [if_neg h]
    rfl
  have hfix : ∀ k, runSteps env k (startAudit targetInput "" initialAppState)
      = startAudit targetInput "" initialAppState :=
    runSteps_fixpoint env _ (processTask_not_active env _ (by rw [hsa]; try rfl))
  refine ⟨by rw [hsa]; try rfl, by rw [hsa]; try rfl, hfix, fun k => ?_⟩
  rw [hfix k, hsa]
  exact ⟨rfl, rfl⟩

/-- Fixed per-form-factor analysis used by the sample agent environment. -/
def sampleFFA : FormFactorAnalysis :=
  ⟨⟨⟨1000, .good⟩, ⟨0, .good⟩, ⟨100, .good⟩⟩, ⟨[1000], [0], [100], none⟩, [], "Unknown"⟩

/-- Sample total agent environment: every boundary call succeeds. -/
def sampleEnv : AgentEnv where
  queryResult := fun d => ⟨d, sampleFFA, sampleFFA⟩
  historianNotes := fun _ _ => "Historian notes"
  interpreterMarkdown := fun _ _ _ => "Interpreter report"
  batchComparison := fun _ => "Batch comparison"

/-- Concrete run of the C8 theorem on a one-domain input. -/
theorem empty_credential_fails_without_network_witness :
    "example.com" ≠ ""
    ∧ (startAudit "example.com" "" initialAppState).agentState = .ERROR
    ∧ (runSteps sampleEnv 5 (startAudit "example.com" "" initialAppState)).queryAgentCalls = 0 :=
  ⟨by decide,
    (empty_credential_fails_without_network "example.com" sampleEnv (by decide)).1,
    ((empty_credential_fails_without_network "example.com" sampleEnv (by decide)).2.2.2 5).2⟩

end Crux

namespace Crux

/-- Report produced for one domain in a successful cycle: the interpreter
output over the query result and the historian notes for that domain. -/
def reportOf (env : AgentEnv) (d : String) : String :=
  env.interpreterMarkdown d (env.queryResult d) (env.historianNotes d (env.queryResult d))

/-- Session memory at the end of one successful per-domain cycle. -/
def cycleMemory (env : AgentEnv) (t : String) : AgentMemory :=
  ⟨⟨t, some (env.queryResult t)⟩,
   ⟨some (env.historianNotes t (env.queryResult t)), none⟩,
   ⟨some (env.queryResult t), reportOf env t⟩⟩

lemma run_three_steps (env : AgentEnv) (t : String) (rest : List String) (tt : Nat)
    (cd : List AnalysisResult) (ir : List String) (mem : AgentMemory) (lg : List LogEntry)
    (bc : List (List AnalysisResult)) (qc : Nat) :
    ∃ lg3, runSteps env 3 ⟨.QUERY, t :: rest, tt, cd, ir, mem, lg, bc, qc⟩
      = ⟨if rest.isEmpty then .INTERPRETER else .QUERY, rest, tt,
         cd ++ [env.queryResult t], ir ++ [reportOf env t], cycleMemory env t, lg3, bc,
         qc + 1⟩ := by
  cases rest with
  | nil => exact ⟨_, rfl⟩
  | cons a l => exact ⟨_, rfl⟩

lemma runSteps_add (env : AgentEnv) (m n : Nat) (s : AppState) :
    runSteps env (m + n) s = runSteps env n (runSteps env m s) := by
  induction m generalizing s with
  | zero => rw [Nat.zero_add]; rfl
  | succ m ih =>
    rw [Nat.succ_add]
    show runSteps env (m + n) (processTask env s) = _
    rw [ih (processTask env s)]
    rfl

lemma run_queue (env : AgentEnv) :
    ∀ (ds : List String) (tt : Nat) (cd : List AnalysisResult) (ir : List String)
      (mem : AgentMemory) (lg : List LogEntry) (bc : List (List AnalysisResult)) (qc : Nat),
      ds ≠ [] →
      ∃ lgf memf,
        runSteps env (3 * ds.length) ⟨.QUERY, ds, tt, cd, ir, mem, lg, bc, qc⟩
          = ⟨.INTERPRETER, [], tt, cd ++ ds.map env.queryResult,
             ir ++ ds.map (reportOf env), memf, lgf, bc, qc + ds.length⟩ := by
  intro ds
  induction ds with
  | nil => intro _ _ _ _ _ _ _ h; exact absurd rfl h
  | cons t rest ih =>
    intro tt cd ir mem lg bc qc _
    cases rest with
    | nil =>
      obtain ⟨lg3, h3⟩ := run_three_steps env t [] tt cd ir mem lg bc qc
      refine ⟨lg3, cycleMemory env t, ?_⟩
      rw [show 3 * ([t] : List String).length = 3 by norm_num, h3]
      simp
    | cons a l =>
      obtain ⟨lg3, h3⟩ := run_three_steps env t (a :: l) tt cd ir mem lg bc qc
      obtain ⟨lgf, memf, hq⟩ := ih tt (cd ++ [env.queryResult t]) (ir ++ [reportOf env t])
        (cycleMemory env t) lg3 bc (qc + 1) (by simp)
      refine ⟨lgf, memf, ?_⟩
      rw [show 3 * ((t :: a :: l : List String)).length = 3 + 3 * ((a :: l : List String)).length
            by simp [List.length_cons]; ring,
          runSteps_add env 3 (3 * ((a :: l : List String)).length), h3]
      simp only [List.isEmpty_cons, Bool.false_eq_true, if_false] at hq ⊢
      rw [hq]
      simp [List.append_assoc, Nat.add_assoc, Nat.add_comm]

lemma finalize_step_batch (env : AgentEnv) (tt : Nat) (cd : List AnalysisResult)
    (ir : List String) (mem : AgentMemory) (lg : List LogEntry)
    (bc : List (List AnalysisResult)) (qc : Nat) (htt : 1 < tt) :
    processTask env ⟨.INTERPRETER, [], tt, cd, ir, mem, lg, bc, qc⟩
      = ⟨.COMPLETE, [], tt, cd, ir,
         { mem with
           query := { mem.query with lastRawResults := cd.getLast? }
           interpreter := { mem.interpreter with
             lastRecommendations :=
               "# 📊 Comparative Conclusion\n\n" ++ env.batchComparison cd } },
         addLog (addLog lg .Interpreter "Finalizing batch comparison..." .info)
           .Assistant "Intelligence cycle complete." .success,
         bc ++ [cd], qc⟩ := by
  unfold processTask finalizeRun
  dsimp only
  rw [if_pos htt]
  rfl

lemma finalize_step_single (env : AgentEnv) (tt : Nat) (cd : List AnalysisResult)
    (ir : List String) (mem : AgentMemory) (lg : List LogEntry)
    (bc : List (List AnalysisResult)) (qc : Nat) (htt : ¬ 1 < tt) :
    processTask env ⟨.INTERPRETER, [], tt, cd, ir, mem, lg, bc, qc⟩
      = ⟨.COMPLETE, [], tt, cd, ir, mem,
         addLog lg .Assistant "Intelligence cycle complete." .success, bc, qc⟩ := by
  unfold processTask finalizeRun
  dsimp only
  rw [if_neg htt]
  rfl

/-- C1: in a batch run over n submitted domains (1 to 10) in which every
per-domain cycle succeeds, after the 3n stage runs and the finalization run
the machine is COMPLETE, the accumulated result list holds exactly the n
per-domain AnalysisResults in submission order, and the batch comparison is
invoked exactly when n exceeds 1, receiving the full accumulated list. -/
theorem batch_run_accumulates_in_order (env : AgentEnv) (ds : List String)
    (h1 : 1 ≤ ds.length) (h10 : ds.length ≤ 10) :
    (runSteps env (3 * ds.length + 1) (startState ds)).agentState = .COMPLETE
    ∧ (runSteps env (3 * ds.length + 1) (startState ds)).completedData
      = ds.map env.queryResult
    ∧ (runSteps env (3 * ds.length + 1) (startState ds)).batchComparisonCalls
      = if 1 < ds.length then [ds.map env.queryResult] else [] := by
  have hne : ds ≠ [] := by
    intro hd
    rw [hd] at h1
    simp at h1
  obtain ⟨lgf, memf, hq⟩ := run_queue env ds ds.length [] [] INITIAL_MEMORY
    (addLog INITIAL_LOGS .Assistant (initQueueMsg ds.length) .info) [] 0 hne
  rw [runSteps_add env (3 * ds.length) 1]
  rw [show startState ds = ⟨.QUERY, ds, ds.length, [], [], INITIAL_MEMORY,
      addLog INITIAL_LOGS .Assistant (initQueueMsg ds.length) .info, [], 0⟩ from rfl, hq]
  rw [show ∀ s, runSteps env 1 s = processTask env s from fun _ => rfl]
  by_cases htt : 1 < ds.length
  · rw [finalize_step_batch env ds.length ([] ++ ds.map env.queryResult)
      ([] ++ ds.map (reportOf env)) memf lgf [] (0 + ds.length) htt]
    simp [htt]
  · rw [finalize_step_single env ds.length ([] ++ ds.map env.queryResult)
      ([] ++ ds.map (reportOf env)) memf lgf [] (0 + ds.length) htt]
    simp [htt]

/-- Concrete run of the C1 theorem on a three-domain batch with the sample
agent environment. -/
theorem batch_run_accumulates_in_order_witness :
    1 ≤ (["https://a.com", "https://b.com", "https://c.com"] : List String).length
    ∧ (["https://a.com", "https://b.com", "https://c.com"] : List String).length ≤ 10
    ∧ (runSteps sampleEnv
        (3 * (["https://a.com", "https://b.com", "https://c.com"] : List String).length + 1)
        (startState ["https://a.com", "https://b.com", "https://c.com"])).agentState
      = .COMPLETE
    ∧ (runSteps sampleEnv
        (3 * (["https://a.com", "https://b.com", "https://c.com"] : List String).length + 1)
        (startState ["https://a.com", "https://b.com", "https://c.com"])).completedData
      = (["https://a.com", "https://b.com", "https://c.com"] : List String).map
          sampleEnv.queryResult
    ∧ (runSteps sampleEnv
        (3 * (["https://a.com", "https://b.com", "https://c.com"] : List String).length + 1)
        (startState ["https://a.com", "https://b.com", "https://c.com"])).batchComparisonCalls
      = if 1 < (["https://a.com", "https://b.com", "https://c.com"] : List String).length then
          [(["https://a.com", "https://b.com", "https://c.com"] : List String).map
            sampleEnv.queryResult]
        else [] :=
  ⟨by decide, by decide,
    (batch_run_accumulates_in_order sampleEnv ["https://a.com", "https://b.com", "https://c.com"]
      (by decide) (by decide)).1,
    (batch_run_accumulates_in_order sampleEnv ["https://a.com", "https://b.com", "https://c.com"]
      (by decide) (by decide)).2.1,
    (batch_run_accumulates_in_order sampleEnv ["https://a.com", "https://b.com", "https://c.com"]
      (by decide) (by decide)).2.2⟩

end Crux
